import Mathlib

/-!
# Connectivity and publishing core of the telemetry firmware

A shallow embedding of `firmware/modules/mqtt_comm.h` (class `MqttComm`) and of
`firmware/modules/dht_sensor.h` (class `MyDHT`).

The firmware talks to three external libraries (WiFiEsp, PubSubClient, ArduinoJson) and to
the Arduino runtime.  Every call into them is recorded, in program order, as an `Event` in the
trace of the `Board`; what the outside world answers is read from a `World`:

* `World.status b q` is what `WiFi.status()` answers when `b` calls of `WiFi.begin` and `q`
  calls of `WiFi.status` have been made before;
* `World.handshake i` is what the `i`-th call of `client.connect` (counted from 0) answers.

`client.connected()` is read from the session flag of the `Board`, which `client.connect`
sets to its own answer.
-/

namespace MqttComm

/-! ## Data model -/

/-- The `wl_status_t` values of the WiFiEsp driver (the header is an external library). -/
inductive WlStatus
  | WL_NO_SHIELD
  | WL_IDLE_STATUS
  | WL_CONNECTED
  | WL_CONNECT_FAILED
  | WL_DISCONNECTED
  deriving DecidableEq, Repr

/-- A C `float` as far as the firmware looks at it: not-a-number, or a finite value (the
infinities, which the DHT driver does not produce, are left out). -/
inductive CFloat
  | nan
  | finite (v : ℚ)
  deriving DecidableEq

/-- The C library test `isnan`. -/
def isnan : CFloat → Bool
  | .nan => true
  | .finite _ => false

/-- A value stored in the JSON document. -/
inductive JsonValue
  | float (x : CFloat)
  | uint (n : Nat)
  deriving DecidableEq

/-- A `StaticJsonDocument` used as an object: its members in insertion order. -/
abbrev JsonDoc := List (String × JsonValue)

/-- The assignment `doc[key] = v`: replaces the member named `key`, or appends a new one. -/
def JsonDoc.set : JsonDoc → String → JsonValue → JsonDoc
  | [], key, v => [(key, v)]
  | (k, x) :: rest, key, v =>
    if k = key then (k, v) :: rest else (k, x) :: JsonDoc.set rest key v

/-- The keys of a document, in order. -/
def JsonDoc.keys (doc : JsonDoc) : List String := doc.map Prod.fst

/-- The member lookup `doc[key]`. -/
def JsonDoc.get? : JsonDoc → String → Option JsonValue
  | [], _ => none
  | (k, x) :: rest, key => if k = key then some x else JsonDoc.get? rest key

/-- The text that `serializeJson(doc, buffer)` writes for `doc` into a `char` buffer of
`capacity` bytes.  The text itself is produced by the ArduinoJson library; the payload is
identified by the document it serialises. -/
structure Payload where
  doc : JsonDoc
  capacity : Nat
  deriving DecidableEq

/-- A call into a library or into the Arduino runtime, as it appears in the source. -/
inductive Event
  /-- The call `espSerial->begin(baud)`. -/
  | serialBegin (baud : Nat)
  /-- The call `WiFi.init(espSerial)`. -/
  | wifiInit
  /-- The call `WiFi.status()`. -/
  | wifiStatus
  /-- The call `WiFi.begin(ssid, pass)`. -/
  | wifiBegin (ssid pass : String)
  /-- The statement `Serial.println(WiFi.localIP())`. -/
  | printlnLocalIP
  /-- The call `delay(ms)`. -/
  | delay (ms : Nat)
  /-- The call `Serial.print(msg)`. -/
  | print (msg : String)
  /-- The call `Serial.println(msg)`. -/
  | println (msg : String)
  /-- The call `client.setServer(host, port)`. -/
  | setServer (host : String) (port : Int)
  /-- The call `client.connected()`. -/
  | clientConnected
  /-- The call `client.connect(id)`. -/
  | clientConnect (id : String)
  /-- The statement `Serial.print(client.state())`. -/
  | clientState
  /-- The call `client.loop()`. -/
  | clientLoop
  /-- The call `client.publish(topic, payload)`. -/
  | clientPublish (topic : List Char) (payload : Payload)
  deriving DecidableEq

/-- The constructor arguments of `MqttComm` (the serial port apart). -/
structure Config where
  ssid : String
  pass : String
  mqttServer : String
  mqttPort : Int
  deriving DecidableEq

/-- The answers of the outside world. -/
structure World where
  status : Nat → Nat → WlStatus
  handshake : Nat → Bool

/-- The state of the device and of its libraries, with the trace of calls made so far. -/
structure Board where
  begins : Nat
  queries : Nat
  connects : Nat
  session : Bool
  trace : List Event
  deriving DecidableEq

/-- The device at power-up. -/
def Board.boot : Board :=
  { begins := 0, queries := 0, connects := 0, session := false, trace := [] }

/-- Record calls in the trace. -/
def Board.log (s : Board) (es : List Event) : Board :=
  { s with trace := s.trace ++ es }

/-- The call `WiFi.status()`: the answer and the board after the call. -/
def wifiStatus (w : World) (s : Board) : WlStatus × Board :=
  (w.status s.begins s.queries,
   { s with queries := s.queries + 1, trace := s.trace ++ [Event.wifiStatus] })

/-- The call `WiFi.begin(ssid, pass)`. -/
def wifiBegin (cfg : Config) (s : Board) : Board :=
  { s with begins := s.begins + 1, trace := s.trace ++ [Event.wifiBegin cfg.ssid cfg.pass] }

/-- The call `client.connected()`. -/
def clientConnected (s : Board) : Bool × Board :=
  (s.session, s.log [Event.clientConnected])

/-- The call `client.connect("esp8266Client")`. -/
def clientConnect (w : World) (s : Board) : Bool × Board :=
  (w.handshake s.connects,
   { s with connects := s.connects + 1, session := w.handshake s.connects,
            trace := s.trace ++ [Event.clientConnect "esp8266Client"] })

/-! ## `MqttComm::setup` -/

/-- The events of one round of the association loop of `setup`, condition included. -/
def assocRound (cfg : Config) : List Event :=
  [Event.wifiStatus, Event.print "Connecting to WiFi...", Event.wifiBegin cfg.ssid cfg.pass,
   Event.delay 3000]

/-- The loop `while (WiFi.status() != WL_CONNECTED && attempts < 10) { ... attempts++; }`. -/
def assocLoop (w : World) (cfg : Config) (attempts : Nat) (s : Board) : Board :=
  let (st, s1) := wifiStatus w s
  if st ≠ WlStatus.WL_CONNECTED ∧ attempts < 10 then
    let s2 := s1.log [Event.print "Connecting to WiFi..."]
    let s3 := wifiBegin cfg s2
    let s4 := s3.log [Event.delay 3000]
    assocLoop w cfg (attempts + 1) s4
  else
    s1
termination_by 10 - attempts
decreasing_by omega

/-- The method `bool MqttComm::setup()`. -/
def setup (w : World) (cfg : Config) (s : Board) : Bool × Board :=
  let s0 := s.log [Event.serialBegin 9600, Event.wifiInit]
  let (st, s1) := wifiStatus w s0
  if st = WlStatus.WL_NO_SHIELD then
    (false, s1.log [Event.println "WiFi shield not present"])
  else
    let s2 := assocLoop w cfg 0 s1
    let (st2, s3) := wifiStatus w s2
    if st2 ≠ WlStatus.WL_CONNECTED then
      (false, s3.log [Event.println "WiFi connection failed."])
    else
      let s4 := s3.log [Event.println "WiFi connected", Event.print "IP Address: ",
                        Event.printlnLocalIP]
      (true, s4.log [Event.setServer cfg.mqttServer cfg.mqttPort])

/-! ## `MqttComm::reconnect` and `MqttComm::loop` -/

/-- The outcome of running a loop that has no bound in the source for at most a given number
of evaluations of its condition: the call has returned, or it is still inside the loop. -/
inductive Run
  | returned (s : Board)
  | running (s : Board)
  deriving DecidableEq

/-- The board a run has reached. -/
def Run.board : Run → Board
  | .returned s => s
  | .running s => s

/-- Whether the call has returned. -/
def Run.isReturned : Run → Bool
  | .returned _ => true
  | .running _ => false

/-- The events of one failed handshake inside `reconnect`, loop condition included. -/
def failRound : List Event :=
  [Event.clientConnected, Event.print "Attempting MQTT connection...",
   Event.clientConnect "esp8266Client", Event.print "failed, rc=", Event.clientState,
   Event.println " try again in 5 seconds", Event.delay 5000]

/-- The events of one successful handshake inside `reconnect`, loop condition included. -/
def okRound : List Event :=
  [Event.clientConnected, Event.print "Attempting MQTT connection...",
   Event.clientConnect "esp8266Client", Event.println "connected"]

/-- The method `void MqttComm::reconnect()`: `while (!client.connected()) { ... }`, run for at
most `fuel` evaluations of the loop condition. -/
def reconnect (w : World) : Nat → Board → Run
  | 0, s => Run.running s
  | fuel + 1, s =>
    let (c, s1) := clientConnected s
    if !c then
      let s2 := s1.log [Event.print "Attempting MQTT connection..."]
      let (ok, s3) := clientConnect w s2
      if ok then
        reconnect w fuel (s3.log [Event.println "connected"])
      else
        reconnect w fuel
          (s3.log [Event.print "failed, rc=", Event.clientState,
                   Event.println " try again in 5 seconds", Event.delay 5000])
    else
      Run.returned s1

/-- The method `void MqttComm::loop()`, the inner `reconnect` run with `fuel`. -/
def loop (w : World) (fuel : Nat) (s : Board) : Run :=
  let (c, s1) := clientConnected s
  if !c then
    match reconnect w fuel s1 with
    | Run.returned s2 => Run.returned (s2.log [Event.clientLoop])
    | Run.running s2 => Run.running s2
  else
    Run.returned (s1.log [Event.clientLoop])

/-! ## `MqttComm::publishSensorData` -/

/-- The C string that `snprintf(buf, size, ...)` leaves in `buf` when the formatted output is
`out`: at most `size - 1` characters, then the terminator.  A C string is the list of its
`char`s before the terminator. -/
def snprintf (size : Nat) (out : List Char) : List Char :=
  out.take (size - 1)

/-- The output of the format `"v1/env/tmp/%s/data"`. -/
def topicFormat (warehouseId : List Char) : List Char :=
  "v1/env/tmp/".toList ++ warehouseId ++ "/data".toList

/-- The contents of `char topic[64]` after the `snprintf` of `publishSensorData`. -/
def topicOf (warehouseId : List Char) : List Char :=
  snprintf 64 (topicFormat warehouseId)

/-- The document built by the three assignments of `publishSensorData`; `millis` is what
`millis()` answers (an `unsigned long`, below `2 ^ 32`). -/
def sensorDoc (millis : Nat) (temp hum : CFloat) : JsonDoc :=
  let doc : JsonDoc := []
  let doc := doc.set "temp" (JsonValue.float temp)
  let doc := doc.set "hum" (JsonValue.float hum)
  doc.set "ts" (JsonValue.uint (millis / 1000))

/-- The method `void MqttComm::publishSensorData(warehouseId, temp, hum)`. -/
def publishSensorData (millis : Nat) (warehouseId : List Char) (temp hum : CFloat)
    (s : Board) : Board :=
  let doc := sensorDoc millis temp hum
  let topic := topicOf warehouseId
  let payload : Payload := { doc := doc, capacity := 128 }
  s.log [Event.clientPublish topic payload]

/-- The calls of `client.publish` in a trace. -/
def publishes : List Event → List (List Char × Payload)
  | [] => []
  | Event.clientPublish t p :: es => (t, p) :: publishes es
  | _ :: es => publishes es

/-- Whether an event is a call of `client.connect`. -/
def isClientConnect : Event → Bool
  | Event.clientConnect _ => true
  | _ => false

/-! ## Worlds and auxiliary definitions used in the statements -/

/-- A world without co-processor. -/
def noShieldWorld : World :=
  { status := fun _ _ => WlStatus.WL_NO_SHIELD, handshake := fun _ => false }

/-- A configuration used in the examples. -/
def demoConfig : Config :=
  { ssid := "lab", pass := "secret", mqttServer := "192.168.0.10", mqttPort := 1883 }

/-- A world whose co-processor answers but whose network never accepts. -/
def deadNetwork : World :=
  { status := fun _ _ => WlStatus.WL_DISCONNECTED, handshake := fun _ => false }

/-- A world whose network accepts the third association attempt. -/
def thirdTimeLucky : World :=
  { status := fun b _ => if b < 3 then WlStatus.WL_DISCONNECTED else WlStatus.WL_CONNECTED,
    handshake := fun _ => true }

/-- A world whose link is up and whose broker refuses the first handshake and accepts the
second. -/
def secondTry : World :=
  { status := fun _ _ => WlStatus.WL_CONNECTED, handshake := fun i => decide (1 ≤ i) }

/-- A world whose link never comes up although its broker would accept a handshake. -/
def brokerOnly : World :=
  { status := fun _ _ => WlStatus.WL_DISCONNECTED, handshake := fun _ => true }

/-- The site identifier read back from a topic: what stands between the 11 characters of
`v1/env/tmp/` and the next `/`.  (Not in the source: used to show that topics differ.) -/
def siteOf (topic : List Char) : List Char :=
  (topic.drop 11).takeWhile (fun c => c != '/')

/-- The board after `n` failed handshakes. -/
def afterFailures (s : Board) (n : Nat) : Board :=
  { s with connects := s.connects + n, session := false,
           trace := s.trace ++ (List.replicate n failRound).flatten }

/-- The boards that calls of `setup` and returning calls of `loop` lead to from power-up. -/
inductive Reachable (w : World) (cfg : Config) : Board → Prop
  | boot : Reachable w cfg Board.boot
  | setup {s : Board} : Reachable w cfg s → Reachable w cfg (setup w cfg s).2
  | loop {s s' : Board} (fuel : Nat) :
      Reachable w cfg s → loop w fuel s = Run.returned s' → Reachable w cfg s'

end MqttComm

/-! ## `MyDHT` -/

namespace MyDHT

open MqttComm

/-- What `dht.readHumidity()` and `dht.readTemperature()` answer in one call of a method. -/
structure Sample where
  humidity : CFloat
  temperature : CFloat
  deriving DecidableEq

/-- The cast `(int)x` of a finite value in the range of `int`: truncation toward zero.  (The
cast of a not-a-number is never evaluated by the methods below.) -/
def toInt : CFloat → Int
  | .nan => 0
  | .finite v => Int.tdiv v.num v.den

/-- The method `int MyDHT::printTemp()`.  On the failure path the source says `return;` in a
function that returns `int`: the caller receives an `int` that the code does not choose,
here `junk`.  The result is the returned `int` and the lines printed. -/
def printTemp (junk : Int) (x : Sample) : Int × List Event :=
  if isnan x.humidity || isnan x.temperature then
    (junk, [Event.println "Failed to read from DHT sensor!"])
  else
    (toInt x.temperature, [])

/-- The method `int MyDHT::printHum()`, with the same failure path as `printTemp`. -/
def printHum (junk : Int) (x : Sample) : Int × List Event :=
  if isnan x.humidity || isnan x.temperature then
    (junk, [Event.println "Failed to read from DHT sensor!"])
  else
    (toInt x.humidity, [])

/-- A sample whose humidity could not be read. -/
def failedSample : Sample := { humidity := CFloat.nan, temperature := CFloat.finite 23 }

/-- A valid sample: 55 % humidity at -3.5 degrees. -/
def frostSample : Sample := { humidity := CFloat.finite 55, temperature := CFloat.finite (-7 / 2) }

end MyDHT

/-! ## Lemmas on the association loop -/

namespace MqttComm

/-- The association loop when the first `n` status answers are failures and the loop then
stops, because the attempts are used up or because the link is up. -/
theorem assocLoop_rounds (w : World) (cfg : Config) :
    ∀ (n a : Nat) (s : Board), a + n ≤ 10 →
      (∀ j q, j < n → w.status (s.begins + j) q ≠ WlStatus.WL_CONNECTED) →
      (a + n = 10 ∨ ∀ q, w.status (s.begins + n) q = WlStatus.WL_CONNECTED) →
      assocLoop w cfg a s =
        { s with begins := s.begins + n, queries := s.queries + n + 1,
                 trace := s.trace ++ ((List.replicate n (assocRound cfg)).flatten
                            ++ [Event.wifiStatus]) } := by
  intro n
  induction n with
  | zero =>
    intro a s _ _ hstop
    rw [assocLoop]
    have hc : ¬ (w.status s.begins s.queries ≠ WlStatus.WL_CONNECTED ∧ a < 10) := by
      rintro ⟨h1, h2⟩
      rcases hstop with h | h
      · omega
      · exact h1 (by simpa using h s.queries)
    simp [wifiStatus, hc]
  | succ n ih =>
    intro a s hle hfail hstop
    rw [assocLoop]
    have hc : w.status s.begins s.queries ≠ WlStatus.WL_CONNECTED ∧ a < 10 :=
      ⟨by simpa using hfail 0 s.queries (Nat.succ_pos n), by omega⟩
    simp only [wifiStatus, hc, and_self, if_true]
    rw [ih (a + 1) _ (by omega)]
    · simp [Board.log, wifiBegin, assocRound, List.replicate_succ, hc.1]
      omega
    · intro j q hj
      have := hfail (j + 1) q (by omega)
      simpa [Board.log, wifiBegin, Nat.add_assoc, Nat.add_comm 1 j] using this
    · rcases hstop with h | h
      · left; omega
      · right
        intro q
        have := h q
        simpa [Board.log, wifiBegin, Nat.add_assoc, Nat.add_comm 1 n] using this

/-! ## `setup`: the three ways it ends -/

/-- C10: when `WiFi.status()` answers `WL_NO_SHIELD` right after `WiFi.init`, `setup` returns
`false` having made no call of `WiFi.begin`, of `delay` or of `client.setServer`: after the
two initialisation calls and the one status query it only prints the diagnostic line. -/
theorem setup_hardware_absent (w : World) (cfg : Config) (s : Board)
    (h : w.status s.begins s.queries = WlStatus.WL_NO_SHIELD) :
    setup w cfg s =
      (false,
       { s with queries := s.queries + 1,
                trace := s.trace ++ [Event.serialBegin 9600, Event.wifiInit, Event.wifiStatus,
                                     Event.println "WiFi shield not present"] }) := by
  simp [setup, wifiStatus, Board.log, h]

theorem setup_hardware_absent_witness :
    noShieldWorld.status Board.boot.begins Board.boot.queries = WlStatus.WL_NO_SHIELD ∧
    setup noShieldWorld demoConfig Board.boot =
      (false,
       { Board.boot with
           queries := Board.boot.queries + 1,
           trace := Board.boot.trace ++ [Event.serialBegin 9600, Event.wifiInit,
                      Event.wifiStatus, Event.println "WiFi shield not present"] }) :=
  ⟨rfl, setup_hardware_absent noShieldWorld demoConfig Board.boot rfl⟩

/-- C1: when the co-processor is present and `WiFi.status()` never answers `WL_CONNECTED`,
`setup` returns `false` after exactly 10 calls of `WiFi.begin`, each followed by one
`delay(3000)`; `client.setServer` is not called. -/
theorem setup_association_timeout (w : World) (cfg : Config) (s : Board)
    (hshield : w.status s.begins s.queries ≠ WlStatus.WL_NO_SHIELD)
    (hnever : ∀ b q, w.status b q ≠ WlStatus.WL_CONNECTED) :
    setup w cfg s =
      (false,
       { s with begins := s.begins + 10, queries := s.queries + 13,
                trace := s.trace ++ [Event.serialBegin 9600, Event.wifiInit, Event.wifiStatus]
                  ++ (List.replicate 10
                        [Event.wifiStatus, Event.print "Connecting to WiFi...",
                         Event.wifiBegin cfg.ssid cfg.pass, Event.delay 3000]).flatten
                  ++ [Event.wifiStatus, Event.wifiStatus,
                      Event.println "WiFi connection failed."] }) := by
  have hloop := fun s1 : Board =>
    assocLoop_rounds w cfg 10 0 s1 (by omega) (fun j q _ => hnever _ q) (Or.inl rfl)
  simp [setup, wifiStatus, Board.log, hshield, hloop, hnever, assocRound]

theorem setup_association_timeout_witness :
    (deadNetwork.status Board.boot.begins Board.boot.queries ≠ WlStatus.WL_NO_SHIELD ∧
      ∀ b q, deadNetwork.status b q ≠ WlStatus.WL_CONNECTED) ∧
    setup deadNetwork demoConfig Board.boot =
      (false,
       { Board.boot with
           begins := Board.boot.begins + 10, queries := Board.boot.queries + 13,
           trace := Board.boot.trace
             ++ [Event.serialBegin 9600, Event.wifiInit, Event.wifiStatus]
             ++ (List.replicate 10
                   [Event.wifiStatus, Event.print "Connecting to WiFi...",
                    Event.wifiBegin demoConfig.ssid demoConfig.pass, Event.delay 3000]).flatten
             ++ [Event.wifiStatus, Event.wifiStatus,
                 Event.println "WiFi connection failed."] }) :=
  ⟨⟨by decide, by intro b q; simp [deadNetwork]⟩,
   setup_association_timeout deadNetwork demoConfig Board.boot (by decide)
     (by intro b q; simp [deadNetwork])⟩

/-- C9: for `k ≤ 10`, when the co-processor is present and `WiFi.status()` answers
`WL_CONNECTED` from the `k`-th call of `WiFi.begin` on and not before (`k = 0`: the link is
up on entry), `setup` makes exactly `k` calls of `WiFi.begin`, each followed by one
`delay(3000)`, none after the success, calls `client.setServer` once with the configured
host and port, and returns `true`. -/
theorem setup_first_success (w : World) (cfg : Config) (s : Board) (k : Nat)
    (hk : k ≤ 10)
    (hshield : w.status s.begins s.queries ≠ WlStatus.WL_NO_SHIELD)
    (hdown : ∀ j q, j < k → w.status (s.begins + j) q ≠ WlStatus.WL_CONNECTED)
    (hup : ∀ q, w.status (s.begins + k) q = WlStatus.WL_CONNECTED) :
    setup w cfg s =
      (true,
       { s with begins := s.begins + k, queries := s.queries + k + 3,
                trace := s.trace ++ [Event.serialBegin 9600, Event.wifiInit, Event.wifiStatus]
                  ++ (List.replicate k
                        [Event.wifiStatus, Event.print "Connecting to WiFi...",
                         Event.wifiBegin cfg.ssid cfg.pass, Event.delay 3000]).flatten
                  ++ [Event.wifiStatus, Event.wifiStatus, Event.println "WiFi connected",
                      Event.print "IP Address: ", Event.printlnLocalIP,
                      Event.setServer cfg.mqttServer cfg.mqttPort] }) := by
  have hloop :=
    assocLoop_rounds w cfg k 0 (wifiStatus w (s.log [Event.serialBegin 9600, Event.wifiInit])).2
      (by omega) (by simpa [wifiStatus, Board.log] using hdown)
      (Or.inr (by simpa [wifiStatus, Board.log] using hup))
  simp [wifiStatus, Board.log] at hloop
  simp [setup, wifiStatus, Board.log, hshield, hloop, hup, assocRound]
  omega

theorem setup_first_success_witness :
    setup thirdTimeLucky demoConfig Board.boot =
      (true,
       { Board.boot with
           begins := Board.boot.begins + 3, queries := Board.boot.queries + 3 + 3,
           trace := Board.boot.trace
             ++ [Event.serialBegin 9600, Event.wifiInit, Event.wifiStatus]
             ++ (List.replicate 3
                   [Event.wifiStatus, Event.print "Connecting to WiFi...",
                    Event.wifiBegin demoConfig.ssid demoConfig.pass, Event.delay 3000]).flatten
             ++ [Event.wifiStatus, Event.wifiStatus, Event.println "WiFi connected",
                 Event.print "IP Address: ", Event.printlnLocalIP,
                 Event.setServer demoConfig.mqttServer demoConfig.mqttPort] }) :=
  setup_first_success thirdTimeLucky demoConfig Board.boot 3 (by decide) (by decide)
    (fun j q hj => by
      have : (Board.boot.begins + j < 3) := by simpa [Board.boot] using hj
      simp [thirdTimeLucky, this])
    (fun q => by simp [thirdTimeLucky, Board.boot])

end MqttComm

/-! ## The topic of `publishSensorData` -/

namespace MqttComm

theorem topicOf_eq_take (s : List Char) :
    topicOf s = ("v1/env/tmp/".toList ++ s ++ "/data".toList).take 63 := rfl

theorem topicFormat_length (s : List Char) : (topicFormat s).length = s.length + 16 := by
  simp [topicFormat]

/-- An identifier of at most 52 characters is wholly in the topic, followed by as much of
`/data` as the buffer has room for. -/
theorem topicOf_short (s : List Char) (h : s.length ≤ 52) :
    topicOf s = "v1/env/tmp/".toList ++ (s ++ "/data".toList.take (52 - s.length)) := by
  have h1 : List.take 52 s = s := List.take_of_length_le h
  simp [topicOf, snprintf, topicFormat, List.take_append_eq_append_take, h1]

theorem takeWhile_suffix (m : Nat) :
    List.takeWhile (fun c => c != '/') ("/data".toList.take m) = [] := by
  cases m with
  | zero => rfl
  | succ m => rfl

theorem siteOf_topicOf (s : List Char) (h : s.length ≤ 52) (hs : '/' ∉ s) :
    siteOf (topicOf s) = s := by
  have hall : List.takeWhile (fun c => c != '/') s = s := by
    rw [List.takeWhile_eq_self_iff]
    intro x hx
    have : x ≠ '/' := fun e => hs (e ▸ hx)
    simpa using this
  rw [topicOf_short s h, siteOf]
  have hdrop : List.drop 11 ("v1/env/tmp/".toList ++ (s ++ "/data".toList.take (52 - s.length)))
      = s ++ "/data".toList.take (52 - s.length) := by
    simp [List.drop_append_eq_append_drop]
  rw [hdrop, List.takeWhile_append, hall, takeWhile_suffix]
  simp

/-- C5 (amended): the topic built by `publishSensorData` is the first 63 characters of
`"v1/env/tmp/" ++ s ++ "/data"`; it is exactly that string if and only if the site
identifier `s` has at most 47 characters. -/
theorem topic_exact_iff (s : List Char) :
    topicOf s = ("v1/env/tmp/".toList ++ s ++ "/data".toList).take 63 ∧
    (topicOf s = "v1/env/tmp/".toList ++ s ++ "/data".toList ↔ s.length ≤ 47) := by
  refine ⟨rfl, ?_⟩
  rw [topicOf_eq_take, List.take_eq_self_iff]
  have := topicFormat_length s
  simp only [topicFormat] at this
  omega

/-- C5 (counterexample): for the identifier of 48 letters `a`, which contains no `/`, the
topic in the buffer is not `"v1/env/tmp/" ++ s ++ "/data"`: its last character is cut. -/
theorem topic_truncated_at_48 :
    '/' ∉ List.replicate 48 'a' ∧
    topicOf (List.replicate 48 'a')
      ≠ "v1/env/tmp/".toList ++ List.replicate 48 'a' ++ "/data".toList ∧
    topicOf (List.replicate 48 'a')
      = "v1/env/tmp/".toList ++ List.replicate 48 'a' ++ "/dat".toList := by
  decide

/-- C7 (amended): two distinct site identifiers that contain no `/` and have at most 52
characters each get distinct topics. -/
theorem topic_injective (s1 s2 : List Char)
    (h1 : s1.length ≤ 52) (h2 : s2.length ≤ 52) (n1 : '/' ∉ s1) (n2 : '/' ∉ s2)
    (hne : s1 ≠ s2) : topicOf s1 ≠ topicOf s2 := by
  intro h
  apply hne
  rw [← siteOf_topicOf s1 h1 n1, ← siteOf_topicOf s2 h2 n2, h]

theorem topic_injective_witness :
    topicOf "east".toList ≠ topicOf "west".toList :=
  topic_injective "east".toList "west".toList (by decide) (by decide) (by decide) (by decide)
    (by decide)

/-- C7 (counterexample): two distinct identifiers of 53 characters without `/` that agree on
their first 52 characters get the same topic. -/
theorem topic_collision :
    List.replicate 52 'a' ++ ['b'] ≠ List.replicate 52 'a' ++ ['c'] ∧
    '/' ∉ List.replicate 52 'a' ++ ['b'] ∧ '/' ∉ List.replicate 52 'a' ++ ['c'] ∧
    topicOf (List.replicate 52 'a' ++ ['b']) = topicOf (List.replicate 52 'a' ++ ['c']) := by
  decide

end MqttComm

/-! ## `publishSensorData` and the session; invalid samples -/

namespace MqttComm

/-- The document of `publishSensorData` has the three members `temp`, `hum` and `ts`, which
hold the two arguments as given and the whole seconds of `millis()`. -/
theorem sensorDoc_members (millis : Nat) (temp hum : CFloat) :
    (sensorDoc millis temp hum).keys = ["temp", "hum", "ts"] ∧
    (sensorDoc millis temp hum).get? "temp" = some (JsonValue.float temp) ∧
    (sensorDoc millis temp hum).get? "hum" = some (JsonValue.float hum) ∧
    (sensorDoc millis temp hum).get? "ts" = some (JsonValue.uint (millis / 1000)) := by
  simp [sensorDoc, JsonDoc.set, JsonDoc.keys, JsonDoc.get?]

theorem publishes_append (xs ys : List Event) :
    publishes (xs ++ ys) = publishes xs ++ publishes ys := by
  induction xs with
  | nil => rfl
  | cons e es ih => cases e <;> simp [publishes, ih]

/-- C2 (amended): `publishSensorData` returns nothing and does not look at the session: for
every site identifier, reading and board, the session connected or not, it makes exactly
one call, `client.publish` with the topic and the payload, and it leaves the session and the
handshake count as they were. -/
theorem publish_unconditional (millis : Nat) (warehouseId : List Char) (temp hum : CFloat)
    (s : Board) :
    (publishSensorData millis warehouseId temp hum s).trace =
      s.trace ++ [Event.clientPublish (topicOf warehouseId)
                    { doc := sensorDoc millis temp hum, capacity := 128 }] ∧
    (publishSensorData millis warehouseId temp hum s).session = s.session ∧
    (publishSensorData millis warehouseId temp hum s).connects = s.connects := by
  simp [publishSensorData, Board.log]

/-- C2 (counterexample): on the board at power-up, whose session is not connected,
`publishSensorData` hands the message to `client.publish`. -/
theorem publish_while_disconnected :
    Board.boot.session = false ∧
    publishes (publishSensorData 5000 "east".toList (CFloat.finite 23) (CFloat.finite 55)
        Board.boot).trace =
      [("v1/env/tmp/east/data".toList,
        { doc := [("temp", JsonValue.float (CFloat.finite 23)),
                  ("hum", JsonValue.float (CFloat.finite 55)),
                  ("ts", JsonValue.uint 5)],
          capacity := 128 })] := by
  decide

end MqttComm

namespace MyDHT

open MqttComm

/-- C8 (amended): `publishSensorData` makes no validity check: whatever `temp` and `hum` it
is given, not-a-number included, it stores them under `temp` and `hum` in the document and
hands that document to `client.publish`, once.  `MyDHT::printTemp` and `MyDHT::printHum`
print `Failed to read from DHT sensor!` when the humidity or the temperature of the sample
is not-a-number, and on every other sample print nothing and return the temperature, or the
humidity, cast to `int`. -/
theorem invalid_reading_handling :
    (∀ (millis : Nat) (warehouseId : List Char) (temp hum : CFloat) (s : Board),
      publishes (publishSensorData millis warehouseId temp hum s).trace =
        publishes s.trace ++
          [(topicOf warehouseId,
            { doc := [("temp", JsonValue.float temp), ("hum", JsonValue.float hum),
                      ("ts", JsonValue.uint (millis / 1000))],
              capacity := 128 })]) ∧
    (∀ (junk : Int) (x : Sample), (isnan x.humidity || isnan x.temperature) = true →
      (printTemp junk x).2 = [Event.println "Failed to read from DHT sensor!"] ∧
      (printHum junk x).2 = [Event.println "Failed to read from DHT sensor!"]) ∧
    (∀ (junk : Int) (x : Sample), (isnan x.humidity || isnan x.temperature) = false →
      printTemp junk x = (toInt x.temperature, []) ∧
      printHum junk x = (toInt x.humidity, [])) := by
  refine ⟨?_, ?_, ?_⟩
  · intro millis warehouseId temp hum s
    simp [publishSensorData, Board.log, publishes_append, publishes, sensorDoc, JsonDoc.set]
  · intro junk x h
    simp [printTemp, printHum, h]
  · intro junk x h
    simp [printTemp, printHum, h]

theorem toInt_frost : toInt (CFloat.finite (-7 / 2)) = -3 := by
  have hn : (-7 / 2 : ℚ).num = -7 := by norm_num
  have hd : (-7 / 2 : ℚ).den = 2 := by norm_num
  simp only [toInt, hn, hd]
  decide

theorem invalid_reading_handling_witness :
    (printTemp 0 failedSample).2 = [Event.println "Failed to read from DHT sensor!"] ∧
    printHum 0 frostSample = (55, []) ∧
    printTemp 0 frostSample = (-3, []) :=
  ⟨(invalid_reading_handling.2.1 0 failedSample rfl).1,
   (invalid_reading_handling.2.2 0 frostSample rfl).2,
   (invalid_reading_handling.2.2 0 frostSample rfl).1.trans
     (by rw [show frostSample.temperature = CFloat.finite (-7 / 2) from rfl, toInt_frost])⟩

/-- C8 (counterexample): a reading whose temperature is not-a-number, handed to
`publishSensorData`, reaches `client.publish` with the not-a-number stored under `temp`. -/
theorem nan_reading_published :
    isnan CFloat.nan = true ∧
    publishes (publishSensorData 5000 "east".toList CFloat.nan (CFloat.finite 55)
        Board.boot).trace =
      [("v1/env/tmp/east/data".toList,
        { doc := [("temp", JsonValue.float CFloat.nan),
                  ("hum", JsonValue.float (CFloat.finite 55)),
                  ("ts", JsonValue.uint 5)],
          capacity := 128 })] := by
  decide

end MyDHT

/-! ## `reconnect` and `loop` -/

namespace MqttComm

/-- While the first `n` handshakes fail, `reconnect` goes `n` times round its loop. -/
theorem reconnect_failures (w : World) :
    ∀ (n fuel : Nat) (s : Board), s.session = false →
      (∀ i, i < n → w.handshake (s.connects + i) = false) →
      reconnect w (n + fuel) s = reconnect w fuel (afterFailures s n) := by
  intro n
  induction n with
  | zero =>
    intro fuel s hs _
    have : afterFailures s 0 = s := by
      cases s
      simp_all [afterFailures]
    simp [this]
  | succ n ih =>
    intro fuel s hs hfail
    have h0 : w.handshake s.connects = false := by simpa using hfail 0 (Nat.succ_pos n)
    have hfuel : n + 1 + fuel = (n + fuel) + 1 := by omega
    rw [hfuel, reconnect]
    simp only [clientConnected, clientConnect, Board.log, hs, h0]
    simp only [Bool.not_false, if_true, Bool.false_eq_true, if_false]
    rw [ih fuel _ rfl]
    · congr 1
      simp [afterFailures, failRound, List.replicate_succ]
      omega
    · intro i hi
      have := hfail (i + 1) (by omega)
      simpa [Nat.add_assoc, Nat.add_comm 1 i] using this

/-- A successful handshake ends `reconnect` at the next evaluation of its condition. -/
theorem reconnect_success (w : World) (fuel : Nat) (s : Board) (hs : s.session = false)
    (hok : w.handshake s.connects = true) :
    reconnect w (fuel + 2) s =
      Run.returned { s with connects := s.connects + 1, session := true,
                            trace := s.trace ++ okRound ++ [Event.clientConnected] } := by
  simp [reconnect, clientConnected, clientConnect, Board.log, hs, hok, okRound]

/-- With no fuel left `reconnect` is still running. -/
theorem reconnect_zero (w : World) (s : Board) : reconnect w 0 s = Run.running s := rfl

/-- Neither `reconnect` nor what it calls queries or changes the WiFi link. -/
theorem reconnect_link (w : World) :
    ∀ (fuel : Nat) (s : Board),
      (reconnect w fuel s).board.queries = s.queries ∧
      (reconnect w fuel s).board.begins = s.begins := by
  intro fuel
  induction fuel with
  | zero => intro s; exact ⟨rfl, rfl⟩
  | succ fuel ih =>
    intro s
    rw [reconnect]
    simp only [clientConnected, clientConnect, Board.log]
    split
    · split
      · rw [(ih _).1, (ih _).2]; exact ⟨rfl, rfl⟩
      · rw [(ih _).1, (ih _).2]; exact ⟨rfl, rfl⟩
    · exact ⟨rfl, rfl⟩

/-- The handshake count never goes down in `reconnect`. -/
theorem reconnect_connects_mono (w : World) :
    ∀ (fuel : Nat) (s : Board), s.connects ≤ (reconnect w fuel s).board.connects := by
  intro fuel
  induction fuel with
  | zero => intro s; exact Nat.le_refl _
  | succ fuel ih =>
    intro s
    rw [reconnect]
    simp only [clientConnected, clientConnect, Board.log]
    split
    · split
      · refine Nat.le_trans ?_ (ih _)
        exact Nat.le_succ _
      · refine Nat.le_trans ?_ (ih _)
        exact Nat.le_succ _
    · exact Nat.le_refl _

/-- On a session that is not connected `reconnect` makes a handshake attempt. -/
theorem reconnect_attempts (w : World) (fuel : Nat) (s : Board) (hs : s.session = false) :
    s.connects < (reconnect w (fuel + 1) s).board.connects := by
  rw [reconnect]
  simp only [clientConnected, clientConnect, Board.log, hs, Bool.not_false, if_true]
  split
  · refine Nat.lt_of_lt_of_le ?_ (reconnect_connects_mono w fuel _)
    exact Nat.lt_succ_self _
  · refine Nat.lt_of_lt_of_le ?_ (reconnect_connects_mono w fuel _)
    exact Nat.lt_succ_self _

/-- When `reconnect` returns, the session is connected; a session that was not connected on
entry has been connected by a successful handshake made during the call. -/
theorem reconnect_returned (w : World) :
    ∀ (fuel : Nat) (s s' : Board), reconnect w fuel s = Run.returned s' →
      s'.session = true ∧
      (s.session = true → s'.connects = s.connects) ∧
      (s.session = false →
        ∃ i, s.connects ≤ i ∧ i < s'.connects ∧ w.handshake i = true) := by
  intro fuel
  induction fuel with
  | zero => intro s s' h; simp [reconnect] at h
  | succ fuel ih =>
    intro s s' h
    rw [reconnect] at h
    simp only [clientConnected, clientConnect, Board.log] at h
    cases hs : s.session with
    | true =>
      simp only [hs, Bool.not_true, Bool.false_eq_true, if_false] at h
      cases h
      simp [hs]
    | false =>
      simp only [hs, Bool.not_false, if_true] at h
      refine ⟨?_, by simp, fun _ => ?_⟩
      · split at h
        · exact (ih _ _ h).1
        · exact (ih _ _ h).1
      · cases hk : w.handshake s.connects with
        | true =>
          simp only [hk, if_true] at h
          obtain ⟨_, hsame, _⟩ := ih _ _ h
          have := hsame rfl
          simp at this
          exact ⟨s.connects, Nat.le_refl _, by omega, hk⟩
        | false =>
          simp only [hk, Bool.false_eq_true, if_false] at h
          obtain ⟨_, _, hex⟩ := ih _ _ h
          obtain ⟨i, h1, h2, h3⟩ := hex rfl
          simp at h1
          exact ⟨i, by omega, h2, h3⟩

end MqttComm

/-! ## One call of `loop` -/

namespace MqttComm

/-- C4 (amended): one call of `loop` on a session that is not connected repeats
`client.connect` until an attempt succeeds.  When the first success is attempt `n + 1`, the
call makes exactly `n + 1` attempts, with one `delay(5000)` after each of the `n` failures,
and returns with the session connected after one `client.loop()` (for `n = 0`: one attempt,
no delay).  When no attempt ever succeeds the call does not return: after any number of
rounds it is still inside `reconnect`. -/
theorem loop_retries_until_connected (w : World) (s : Board) (hs : s.session = false) :
    (∀ n, (∀ i, i < n → w.handshake (s.connects + i) = false) →
      w.handshake (s.connects + n) = true →
      ∀ fuel, n + 2 ≤ fuel →
        loop w fuel s =
          Run.returned
            { s with connects := s.connects + n + 1, session := true,
                     trace := s.trace ++ [Event.clientConnected]
                       ++ (List.replicate n failRound).flatten ++ okRound
                       ++ [Event.clientConnected, Event.clientLoop] }) ∧
    ((∀ i, w.handshake (s.connects + i) = false) →
      ∀ fuel,
        loop w fuel s =
          Run.running
            { s with connects := s.connects + fuel,
                     trace := s.trace ++ [Event.clientConnected]
                       ++ (List.replicate fuel failRound).flatten }) := by
  constructor
  · intro n hfail hok fuel hfuel
    obtain ⟨r, rfl⟩ : ∃ r, fuel = n + (r + 2) := ⟨fuel - (n + 2), by omega⟩
    have h1 := reconnect_failures w n (r + 2) (s.log [Event.clientConnected]) hs hfail
    have h2 := reconnect_success w r (afterFailures (s.log [Event.clientConnected]) n) rfl hok
    simp only [loop, clientConnected, hs, Bool.not_false, if_true, h1, h2]
    simp [afterFailures, Board.log]
  · intro hfail fuel
    have h1 := reconnect_failures w fuel 0 (s.log [Event.clientConnected]) hs
      (fun i _ => hfail i)
    simp only [Nat.add_zero] at h1
    simp only [loop, clientConnected, hs, Bool.not_false, if_true, h1, reconnect_zero]
    simp [afterFailures, Board.log, hs]

theorem loop_retries_until_connected_witness :
    loop secondTry 7 Board.boot =
      Run.returned
        { Board.boot with
            connects := Board.boot.connects + 1 + 1, session := true,
            trace := Board.boot.trace ++ [Event.clientConnected]
              ++ (List.replicate 1 failRound).flatten ++ okRound
              ++ [Event.clientConnected, Event.clientLoop] } :=
  (loop_retries_until_connected secondTry Board.boot rfl).1 1
    (fun i hi => by
      have : i = 0 := by omega
      subst this
      rfl)
    rfl 7 (by decide)

/-- C4 (counterexample): when the broker refuses the first handshake and accepts the second,
one call of `loop` on the disconnected session makes two calls of `client.connect`, and it
returns with the session connected. -/
theorem loop_two_handshakes :
    Board.boot.session = false ∧
    loop secondTry 3 Board.boot =
      Run.returned
        { begins := 0, queries := 0, connects := 2, session := true,
          trace :=
            [Event.clientConnected,
             Event.clientConnected, Event.print "Attempting MQTT connection...",
             Event.clientConnect "esp8266Client", Event.print "failed, rc=", Event.clientState,
             Event.println " try again in 5 seconds", Event.delay 5000,
             Event.clientConnected, Event.print "Attempting MQTT connection...",
             Event.clientConnect "esp8266Client", Event.println "connected",
             Event.clientConnected, Event.clientLoop] } ∧
    List.countP isClientConnect (loop secondTry 3 Board.boot).board.trace = 2 := by
  decide

end MqttComm

/-! ## The session and the link -/

namespace MqttComm

/-- The association loop leaves the session and the handshake count alone. -/
theorem assocLoop_session (w : World) (cfg : Config) :
    ∀ (n a : Nat) (s : Board), 10 - a = n →
      (assocLoop w cfg a s).session = s.session ∧
      (assocLoop w cfg a s).connects = s.connects := by
  intro n
  induction n with
  | zero =>
    intro a s h
    rw [assocLoop]
    have : ¬ a < 10 := by omega
    simp [wifiStatus, this]
  | succ n ih =>
    intro a s h
    rw [assocLoop]
    simp only [wifiStatus]
    split
    · rw [(ih (a + 1) _ (by omega)).1, (ih (a + 1) _ (by omega)).2]
      exact ⟨rfl, rfl⟩
    · exact ⟨rfl, rfl⟩

/-- The method `setup` leaves the session and the handshake count alone. -/
theorem setup_session (w : World) (cfg : Config) (s : Board) :
    (setup w cfg s).2.session = s.session ∧ (setup w cfg s).2.connects = s.connects := by
  have h := assocLoop_session w cfg 10 0
    (wifiStatus w (s.log [Event.serialBegin 9600, Event.wifiInit])).2 rfl
  simp only [wifiStatus, Board.log] at h
  simp only [setup, wifiStatus, Board.log]
  split
  · exact ⟨rfl, rfl⟩
  · split
    · exact h
    · exact h

/-- When `loop` returns, the session is connected; a session that was not connected on entry
has been connected by a successful handshake made during the call. -/
theorem loop_returned (w : World) (fuel : Nat) (s s' : Board)
    (h : loop w fuel s = Run.returned s') :
    s'.session = true ∧
    (s.session = true → s'.connects = s.connects) ∧
    (s.session = false → ∃ i, s.connects ≤ i ∧ i < s'.connects ∧ w.handshake i = true) := by
  simp only [loop, clientConnected] at h
  cases hs : s.session with
  | true =>
    simp only [hs, Bool.not_true, Bool.false_eq_true, if_false] at h
    cases h
    simp [Board.log, hs]
  | false =>
    simp only [hs, Bool.not_false, if_true] at h
    cases hr : reconnect w fuel (s.log [Event.clientConnected]) with
    | running s2 => simp [hr] at h
    | returned s2 =>
      simp only [hr] at h
      cases h
      obtain ⟨h1, _, h3⟩ := reconnect_returned w fuel _ _ hr
      exact ⟨h1, by simp, fun _ => h3 hs⟩

/-- The method `loop` neither queries nor changes the WiFi link. -/
theorem loop_link (w : World) (fuel : Nat) (s : Board) :
    (loop w fuel s).board.queries = s.queries ∧ (loop w fuel s).board.begins = s.begins := by
  have h := reconnect_link w fuel (s.log [Event.clientConnected])
  simp only [loop, clientConnected]
  split
  · cases hr : reconnect w fuel (s.log [Event.clientConnected]) with
    | running s2 =>
      rw [hr] at h
      exact h
    | returned s2 =>
      rw [hr] at h
      exact h
  · exact ⟨rfl, rfl⟩

/-- On a session that is not connected `loop` makes a handshake attempt. -/
theorem loop_attempts (w : World) (fuel : Nat) (s : Board) (hs : s.session = false) :
    s.connects < (loop w (fuel + 1) s).board.connects := by
  have h := reconnect_attempts w fuel (s.log [Event.clientConnected]) hs
  simp only [loop, clientConnected, hs, Bool.not_false, if_true]
  cases hr : reconnect w (fuel + 1) (s.log [Event.clientConnected]) with
  | running s2 =>
    rw [hr] at h
    exact h
  | returned s2 =>
    rw [hr] at h
    exact h

/-- C3 (amended): in every state reachable through `setup` and `loop` the session is
connected only if a `client.connect` handshake has succeeded.  `setup` leaves the session and
the handshake count alone; `loop` never queries `WiFi.status()` and never calls
`WiFi.begin`; a call of `loop` on a session that is not connected attempts the broker
handshake, whatever the state of the link; a call of `loop` on a connected session leaves it
connected and only calls `client.loop()`. -/
theorem session_connected_only_by_handshake (w : World) (cfg : Config) :
    (∀ s, Reachable w cfg s → s.session = true →
      ∃ i, i < s.connects ∧ w.handshake i = true) ∧
    (∀ s, (setup w cfg s).2.session = s.session ∧ (setup w cfg s).2.connects = s.connects) ∧
    (∀ fuel s, (loop w fuel s).board.queries = s.queries ∧
      (loop w fuel s).board.begins = s.begins) ∧
    (∀ fuel s, s.session = false → s.connects < (loop w (fuel + 1) s).board.connects) ∧
    (∀ fuel s, s.session = true →
      loop w fuel s = Run.returned (s.log [Event.clientConnected, Event.clientLoop])) := by
  refine ⟨?_, setup_session w cfg, loop_link w, loop_attempts w, ?_⟩
  · intro s hr
    induction hr with
    | boot => intro h; simp [Board.boot] at h
    | setup _ ih =>
      intro h
      rw [(setup_session w cfg _).1] at h
      rw [(setup_session w cfg _).2]
      exact ih h
    | @loop s0 s1 fuel _ hl ih =>
      intro _
      obtain ⟨_, hsame, hnew⟩ := loop_returned w fuel s0 s1 hl
      cases hs : s0.session with
      | true =>
        obtain ⟨i, hi, hok⟩ := ih hs
        exact ⟨i, by rw [hsame hs]; exact hi, hok⟩
      | false =>
        obtain ⟨i, _, hi, hok⟩ := hnew hs
        exact ⟨i, hi, hok⟩
  · intro fuel s hs
    simp [loop, clientConnected, hs, Board.log]

theorem session_connected_only_by_handshake_witness :
    (∃ i, i < 1 ∧ brokerOnly.handshake i = true) ∧
    Board.boot.connects < (loop deadNetwork 3 Board.boot).board.connects :=
  ⟨(session_connected_only_by_handshake brokerOnly demoConfig).1
      { begins := 0, queries := 0, connects := 1, session := true,
        trace := Event.clientConnected :: (okRound ++ [Event.clientConnected, Event.clientLoop]) }
      (Reachable.loop 2 Reachable.boot (by decide)) rfl,
   (session_connected_only_by_handshake deadNetwork demoConfig).2.2.2.1 2 Board.boot rfl⟩

/-- C3 (counterexample): in a world where `WiFi.status()` never answers `WL_CONNECTED`,
`setup` returns `false`, and a call of `loop` that follows does not return without a
handshake: with a broker that never answers it is still inside `reconnect` after three
calls of `client.connect`, having made no status query; with a broker that would answer it
returns with the session connected. -/
theorem handshake_without_link :
    (∀ b q, deadNetwork.status b q ≠ WlStatus.WL_CONNECTED) ∧
    (setup deadNetwork demoConfig Board.boot).1 = false ∧
    (loop deadNetwork 3 (setup deadNetwork demoConfig Board.boot).2).isReturned = false ∧
    (loop deadNetwork 3 (setup deadNetwork demoConfig Board.boot).2).board.connects = 3 ∧
    (∀ b q, brokerOnly.status b q ≠ WlStatus.WL_CONNECTED) ∧
    (setup brokerOnly demoConfig Board.boot).1 = false ∧
    (loop brokerOnly 2 (setup brokerOnly demoConfig Board.boot).2).isReturned = true ∧
    (loop brokerOnly 2 (setup brokerOnly demoConfig Board.boot).2).board.session = true := by
  refine ⟨by intro b q; simp [deadNetwork], ?_, ?_, ?_, by intro b q; simp [brokerOnly],
    ?_, ?_, ?_⟩ <;>
  simp [setup, assocLoop, wifiStatus, wifiBegin, Board.log, Board.boot, deadNetwork,
    brokerOnly, loop, reconnect, clientConnected, clientConnect, Run.isReturned, Run.board]

end MqttComm
